import Mathlib

/-!
Shallow embedding of the FLYR transcription backend core
(src/backend/app/transcribe.py and src/backend/app/main.py).

Modelling conventions:
- Python floats carrying audio timestamps and durations are modelled as `Rat`;
  the code performs no float arithmetic on them beyond selection, Python-falsy
  coalescing (`x or 0.0`) and `round(x, 2)`.
- The external faster-whisper engine is opaque: its output (an ordered segment
  list and an info record) is a parameter of the functions that consume it, and
  its possible failure modes are enumerated explicitly.
- Python `None` becomes `Option.none`; Python string falsiness (`s or d` treats
  `""` like `None`) is modelled explicitly by `pyOrStr`.
- The module-level mutable cache of `transcribe.py` becomes an explicit
  `CacheState` threaded through `get_model`, which returns the result, the
  post-state and whether a construction happened.
-/

namespace FLYR

/-- `ALLOWED_MODELS` from transcribe.py line 11. -/
def ALLOWED_MODELS : List String := ["base", "small", "medium", "large-v2", "large-v3"]

/-- Python `str.strip()` on the character list: drop leading and trailing
whitespace. -/
def pyStripChars (cs : List Char) : List Char :=
  ((cs.dropWhile Char.isWhitespace).reverse.dropWhile Char.isWhitespace).reverse

/-- Python `str.strip()`. -/
def pyStrip (s : String) : String := String.mk (pyStripChars s.data)

/-- Python `sep.join(l)`. -/
def pyJoin (sep : String) : List String → String
  | [] => ""
  | [s] => s
  | s :: rest => s ++ sep ++ pyJoin sep rest

/-- Python `a or d` on an optional string: `None` and `""` are falsy. -/
def pyOrStr (a : Option String) (d : String) : String :=
  match a with
  | none => d
  | some s => if s = "" then d else s

/-- A segment as emitted by the external engine: `s.start`, `s.end`, `s.text`. -/
structure RawSegment where
  start : Rat
  end_ : Rat
  text : String
deriving DecidableEq, Inhabited, Repr

/-- The engine's info record: `info.duration` (may be absent) and
`info.language` (may be `None` when detection fails). -/
structure TranscribeInfo where
  duration : Option Rat
  language : Option String
deriving DecidableEq, Repr

/-- An output segment dict `{"start": ..., "end": ..., "text": ...}`. -/
structure Segment where
  start : Rat
  end_ : Rat
  text : String
deriving DecidableEq, Repr

/-- Result tuple of `transcribe_file`: (text, detected_language, duration_sec, segments). -/
structure TranscribeResult where
  text : String
  detected : Option String
  duration_sec : Rat
  segments : List Segment
deriving DecidableEq, Repr

/-- Python `float(x or 0.0)` on an optional numeric value: `None` and `0.0`
are falsy, both yielding `0.0`. -/
def pyOrZero (x : Option Rat) : Rat :=
  match x with
  | none => 0
  | some d => if d = 0 then 0 else d

/-- The result-shaping part of `transcribe_file` (transcribe.py lines 55-86),
with the external engine call `model.transcribe(...)` abstracted: its output
`segments_list` (the materialized iterator, in emission order) and `info` are
inputs. Mirrors, in order: the space-join/strip of the raw segment texts, the
three-tier duration fallback, the detected language and the
`include_timestamps` branch over the segment list. -/
def transcribe_file (segments_list : List RawSegment) (info : TranscribeInfo)
    (include_timestamps : Bool) : TranscribeResult :=
  let text := pyStrip (pyJoin " " (segments_list.map (fun s => s.text)))
  let duration0 : Option Rat := info.duration
  let duration1 : Option Rat :=
    if duration0 = none ∧ ¬ segments_list.isEmpty then
      some (segments_list.getLastD default).end_
    else duration0
  let duration_sec : Rat := pyOrZero duration1
  let detected := info.language
  let segments : List Segment :=
    if include_timestamps then
      segments_list.map (fun s => ⟨s.start, s.end_, pyStrip s.text⟩)
    else []
  ⟨text, detected, duration_sec, segments⟩

/-- Modelled from the spec's words (for comparison with the code): "full text
is the space-joined, trimmed concatenation of each segment's trimmed text". -/
def specFullText (segments_list : List RawSegment) : String :=
  pyStrip (pyJoin " " (segments_list.map (fun s => pyStrip s.text)))

/-! ### The engine cache (`get_model`, transcribe.py lines 13-52) -/

/-- The environment variables `get_model` reads. A variable set to `""` is
distinct from an unset one, matching `os.environ.get`. -/
structure WhisperEnv where
  WHISPER_DEVICE : Option String
  WHISPER_COMPUTE_TYPE : Option String
deriving DecidableEq, Repr

/-- The module-level cache globals of transcribe.py lines 13-17:
`_model`, `_loaded_model_name`, `_loaded_device`, `_loaded_compute_type`.
The handle type `E` is abstract (in the code, a `WhisperModel`). -/
structure CacheState (E : Type) where
  model : Option E
  loaded_model_name : Option String
  loaded_device : Option String
  loaded_compute_type : Option String
deriving DecidableEq, Repr

/-- The empty cache (module load time: all four globals are `None`). -/
def CacheState.empty {E : Type} : CacheState E := ⟨none, none, none, none⟩

/-- `device = device or os.environ.get("WHISPER_DEVICE", "cpu")`. -/
def resolve_device (device : Option String) (env : WhisperEnv) : String :=
  pyOrStr device (env.WHISPER_DEVICE.getD "cpu")

/-- The `compute_type` defaulting of transcribe.py lines 31-34:
`float16` default on cuda, `int8` otherwise, env override in both cases. -/
def resolve_compute_type (compute_type : Option String) (device : String)
    (env : WhisperEnv) : String :=
  if device = "cuda" then
    pyOrStr compute_type (env.WHISPER_COMPUTE_TYPE.getD "float16")
  else
    pyOrStr compute_type (env.WHISPER_COMPUTE_TYPE.getD "int8")

/-- Outcome of one `get_model` call: the returned handle or the propagated
exception, the post-call cache state, and whether a construction ran. -/
structure GetModelOutcome (E : Type) where
  result : Except String E
  state : CacheState E
  constructed : Bool
deriving Repr

/-- The construct-and-replace arm of `get_model` (transcribe.py lines 43-51):
`WhisperModel(...)` may raise, in which case the globals are untouched and the
exception propagates; on success all four globals are overwritten. -/
def load_model {E : Type} (construct : String → String → String → Except String E)
    (st : CacheState E) (model_size device compute_type : String) :
    GetModelOutcome E :=
  match construct model_size device compute_type with
  | .error e => ⟨.error e, st, false⟩
  | .ok m => ⟨.ok m, ⟨some m, some model_size, some device, some compute_type⟩, true⟩

/-- `get_model` (transcribe.py lines 20-52): validate the model name, resolve
device and compute type, then under the lock either reuse the live handle
(when one exists and all three recorded fields match) or construct a
replacement. `construct` stands for the external `WhisperModel` constructor. -/
def get_model {E : Type} (construct : String → String → String → Except String E)
    (env : WhisperEnv) (st : CacheState E) (model_size : String)
    (device compute_type : Option String) : GetModelOutcome E :=
  if model_size ∉ ALLOWED_MODELS then
    ⟨.error ("model must be one of " ++ pyJoin ", " ALLOWED_MODELS
      ++ ", got " ++ model_size), st, false⟩
  else
    let dev := resolve_device device env
    let ct := resolve_compute_type compute_type dev env
    match st.model with
    | none => load_model construct st model_size dev ct
    | some m =>
      if st.loaded_model_name ≠ some model_size ∨ st.loaded_device ≠ some dev
          ∨ st.loaded_compute_type ≠ some ct then
        load_model construct st model_size dev ct
      else
        ⟨.ok m, st, false⟩

/-! ### The request orchestrator (`transcribe` route, main.py lines 53-124) -/

/-- Server configuration read from the environment at module load:
`TRANSCRIBE_API_KEY` (default `""`) and `MAX_UPLOAD_BYTES` (default 50 MiB). -/
structure ServerEnv where
  TRANSCRIBE_API_KEY : String
  MAX_UPLOAD_BYTES : Nat
deriving DecidableEq, Repr

/-- `_require_api_key`'s rejection test (main.py lines 40-44), split from the
missing-secret test: `not x_api_key or x_api_key != TRANSCRIBE_API_KEY`. -/
def api_key_rejected (x_api_key : Option String) (secret : String) : Bool :=
  match x_api_key with
  | none => true
  | some k => k = "" || k ≠ secret

/-- Outcome of `await file.read()`: the body bytes, or an exception. -/
inductive ReadResult where
  | ok (content : List Nat)
  | readError
deriving DecidableEq, Repr

/-- Outcome of the staging `with` block (main.py lines 94-96).
`NamedTemporaryFile` is opened with `delete=False`; the file exists as soon as
the constructor returns, and `tmp_path = f.name` is assigned only after
`f.write(content)` succeeds. -/
inductive StageResult where
  | staged
  | createFail
  | writeFail
deriving DecidableEq, Repr

/-- Behaviour of the engine invocation `transcribe_file(tmp_path, ...)`:
a normal return carries the engine's segment list and info record (the
result shaping is `transcribe_file` above); a raised `ValueError` maps to 400
and any other exception to 500 (main.py lines 113-117). -/
inductive EngineBehavior where
  | ok (segments_list : List RawSegment) (info : TranscribeInfo)
  | valueError
  | otherError
deriving DecidableEq, Repr

/-- The JSON response body of a successful request (main.py lines 107-112). -/
structure TranscribeResponse where
  language : String
  duration_sec : Rat
  text : String
  segments : List Segment
deriving DecidableEq, Repr

/-- Observable outcome of one request: HTTP status (200 on success), whether
the handler attempted to read the upload body, whether it entered the staging
block, whether a temporary file was created, whether that file still exists
after the `finally` cleanup, whether the engine was invoked, the sanitized
temp-file suffix (when staging was entered), the trimmed language hint handed
to the engine (when it was invoked) and the response body. -/
structure HandlerOutcome where
  status : Nat
  bodyRead : Bool
  stageAttempted : Bool
  tempCreated : Bool
  tempExistsAfter : Bool
  engineInvoked : Bool
  stagedSuffix : Option String
  langHint : Option (Option String)
  response : Option TranscribeResponse
deriving DecidableEq, Repr

/-- Round-half-to-even on a rational, as Python's `round` ties-to-even. -/
def roundHalfEven (q : Rat) : Int :=
  let f : Int := ⌊q⌋
  let frac : Rat := q - f
  if frac < 1/2 then f
  else if 1/2 < frac then f + 1
  else if f % 2 = 0 then f else f + 1

/-- Python `round(x, 2)` (on our rational model of the float). -/
def round2 (q : Rat) : Rat := (roundHalfEven (q * 100) : Rat) / 100

/-- The final path component (Python `Path(name).name`): the characters after
the last `/`. -/
def lastComponentChars (cs : List Char) : List Char :=
  (cs.reverse.takeWhile (fun c => c ≠ '/')).reverse

/-- Index of the last `.` in a character list (Python `str.rfind('.')` when it
finds one). -/
def rfindDotIdx : List Char → Option Nat
  | [] => none
  | c :: cs =>
    match rfindDotIdx cs with
    | some i => some (i + 1)
    | none => if c = '.' then some 0 else none

/-- `Path(name).suffix`: the extension of the final path component, including
the leading dot; empty when there is no dot, the only dot is leading
(hidden file) or the dot is trailing. -/
def pathSuffix (filename : String) : String :=
  let cs := lastComponentChars filename.data
  match rfindDotIdx cs with
  | none => ""
  | some i => if 0 < i ∧ i + 1 < cs.length then String.mk (cs.drop i) else ""

/-- The extension allow-list of main.py line 86. -/
def allowedSuffixes : List String :=
  [".m4a", ".mp3", ".wav", ".webm", ".ogg", ".flac", ".bin"]

/-- Suffix sanitation (main.py lines 85-87): `Path(filename).suffix or ".bin"`,
then replaced by `".bin"` when not in the allow-list. -/
def sanitizeSuffix (filename : String) : String :=
  let suffix0 := pathSuffix filename
  let suffix1 := if suffix0 = "" then ".bin" else suffix0
  if suffix1 ∈ allowedSuffixes then suffix1 else ".bin"

/-- `lang_param = (language or "").strip() or None` (main.py line 98). -/
def langParam (language : Option String) : Option String :=
  let s := pyStrip (pyOrStr language "")
  if s = "" then none else some s

/-- The `POST /v1/transcribe` handler (main.py lines 53-124). External effects
are parameters: `readRes` the body read, `stage` the temp-file `with` block,
`engine` the engine invocation, `unlinkRaises` whether `os.unlink` raises
`OSError` in the `finally` block (which the code swallows). Control flow in
source order: API-key check, model allow-list check, body read, size check,
suffix sanitation, staging, recognition, response shaping, with the `finally`
cleanup deleting the temp file only when `tmp_path` was assigned. -/
def transcribeRoute (env : ServerEnv) (x_api_key : Option String) (model : String)
    (language : Option String) (timestamps : Bool) (filename : Option String)
    (readRes : ReadResult) (stage : StageResult) (engine : EngineBehavior)
    (unlinkRaises : Bool) : HandlerOutcome :=
  if env.TRANSCRIBE_API_KEY = "" then
    ⟨500, false, false, false, false, false, none, none, none⟩
  else if api_key_rejected x_api_key env.TRANSCRIBE_API_KEY then
    ⟨401, false, false, false, false, false, none, none, none⟩
  else if model ∉ ALLOWED_MODELS then
    ⟨400, false, false, false, false, false, none, none, none⟩
  else
    match readRes with
    | .readError => ⟨400, true, false, false, false, false, none, none, none⟩
    | .ok content =>
      if env.MAX_UPLOAD_BYTES < content.length then
        ⟨413, true, false, false, false, false, none, none, none⟩
      else
        let suffix := sanitizeSuffix (pyOrStr filename "audio")
        match stage with
        | .createFail =>
          ⟨500, true, true, false, false, false, some suffix, none, none⟩
        | .writeFail =>
          ⟨500, true, true, true, true, false, some suffix, none, none⟩
        | .staged =>
          let existsAfter := unlinkRaises
          let lang_param := langParam language
          match engine with
          | .valueError =>
            ⟨400, true, true, true, existsAfter, true, some suffix, some lang_param, none⟩
          | .otherError =>
            ⟨500, true, true, true, existsAfter, true, some suffix, some lang_param, none⟩
          | .ok segments_list info =>
            let r := transcribe_file segments_list info timestamps
            ⟨200, true, true, true, existsAfter, true, some suffix, some lang_param,
              some ⟨pyOrStr r.detected "en", round2 r.duration_sec, r.text, r.segments⟩⟩

/-! ### Lemmas about the engine cache -/

/-- Helper: when the cache must construct (no live handle, or a recorded
configuration field differs from the resolved request), `get_model` runs the
construct-and-replace arm. -/
theorem get_model_eq_load {E : Type}
    (construct : String → String → String → Except String E)
    (env : WhisperEnv) (st : CacheState E) (model_size : String)
    (device compute_type : Option String)
    (hmem : model_size ∈ ALLOWED_MODELS)
    (hneed : st.model = none
      ∨ ¬(st.loaded_model_name = some model_size
            ∧ st.loaded_device = some (resolve_device device env)
            ∧ st.loaded_compute_type
                = some (resolve_compute_type compute_type (resolve_device device env) env))) :
    get_model construct env st model_size device compute_type
      = load_model construct st model_size (resolve_device device env)
          (resolve_compute_type compute_type (resolve_device device env) env) := by
  rcases hneed with hnone | hne
  · simp [get_model, hmem, hnone]
  · cases hst : st.model with
    | none => simp [get_model, hmem, hst]
    | some m0 =>
      have hcond : st.loaded_model_name ≠ some model_size
          ∨ st.loaded_device ≠ some (resolve_device device env)
          ∨ st.loaded_compute_type
              ≠ some (resolve_compute_type compute_type (resolve_device device env) env) := by
        tauto
      simp [get_model, hmem, hst, hcond]

/-- Helper: when a live handle's recorded configuration matches the resolved
request in all three fields, `get_model` returns it unchanged without
constructing. -/
theorem get_model_reuse {E : Type}
    (construct : String → String → String → Except String E)
    (env : WhisperEnv) (st : CacheState E) (model_size : String)
    (device compute_type : Option String) (m0 : E)
    (hmem : model_size ∈ ALLOWED_MODELS)
    (hm : st.model = some m0)
    (h1 : st.loaded_model_name = some model_size)
    (h2 : st.loaded_device = some (resolve_device device env))
    (h3 : st.loaded_compute_type
        = some (resolve_compute_type compute_type (resolve_device device env) env)) :
    get_model construct env st model_size device compute_type = ⟨.ok m0, st, false⟩ := by
  simp [get_model, hmem, hm, h1, h2, h3]

/-- Claim C1: a `get_model` call whose resolved configuration triple matches
the live handle's recorded triple returns that handle with no construction; if
no handle is loaded or any field differs, exactly one construction runs and
replaces the slot, after which a second acquire of the same configuration
(under any constructor) performs no further construction. -/
theorem engine_cache_reuse_and_single_construction {E : Type}
    (construct construct2 : String → String → String → Except String E)
    (env : WhisperEnv) (st : CacheState E) (model_size : String)
    (device compute_type : Option String) (dev ct : String) (m : E)
    (hmem : model_size ∈ ALLOWED_MODELS)
    (hdev : dev = resolve_device device env)
    (hct : ct = resolve_compute_type compute_type dev env) :
    (∀ m0, st.model = some m0 → st.loaded_model_name = some model_size →
      st.loaded_device = some dev → st.loaded_compute_type = some ct →
      get_model construct env st model_size device compute_type = ⟨.ok m0, st, false⟩)
    ∧ ((st.model = none
          ∨ ¬(st.loaded_model_name = some model_size ∧ st.loaded_device = some dev
                ∧ st.loaded_compute_type = some ct)) →
      construct model_size dev ct = .ok m →
      get_model construct env st model_size device compute_type
          = ⟨.ok m, ⟨some m, some model_size, some dev, some ct⟩, true⟩
        ∧ get_model construct2 env ⟨some m, some model_size, some dev, some ct⟩
            model_size device compute_type
          = ⟨.ok m, ⟨some m, some model_size, some dev, some ct⟩, false⟩) := by
  subst hdev
  subst hct
  refine ⟨?_, ?_⟩
  · intro m0 hm h1 h2 h3
    exact get_model_reuse construct env st model_size device compute_type m0 hmem hm h1 h2 h3
  · intro hneed hc
    refine ⟨?_, ?_⟩
    · rw [get_model_eq_load construct env st model_size device compute_type hmem hneed]
      simp [load_model, hc]
    · exact get_model_reuse construct2 env _ model_size device compute_type m hmem rfl rfl rfl rfl

/-- Witness for C1: on an empty cache, acquiring `small` on CPU constructs
once; acquiring the same configuration again returns the cached handle with no
construction, even under a constructor that would fail. -/
theorem engine_cache_reuse_and_single_construction_witness :
    get_model (fun _ _ _ => (.ok 7 : Except String Nat)) ⟨none, none⟩ CacheState.empty
        "small" none none
      = ⟨.ok 7, ⟨some 7, some "small", some "cpu", some "int8"⟩, true⟩
    ∧ get_model (fun _ _ _ => (.error "second load" : Except String Nat)) ⟨none, none⟩
        ⟨some 7, some "small", some "cpu", some "int8"⟩ "small" none none
      = ⟨.ok 7, ⟨some 7, some "small", some "cpu", some "int8"⟩, false⟩ :=
  (engine_cache_reuse_and_single_construction
      (fun _ _ _ => (.ok 7 : Except String Nat))
      (fun _ _ _ => (.error "second load" : Except String Nat))
      ⟨none, none⟩ CacheState.empty "small" none none "cpu" "int8" 7
      (by decide) rfl rfl).2 (Or.inl rfl) rfl

/-- Claim C6: when construction raises, `get_model` propagates the error with
the cache state unchanged (prior handle and recorded triple retained, or still
empty), and a subsequent acquire retries construction. -/
theorem engine_cache_construction_failure_preserves_state {E : Type}
    (construct construct2 : String → String → String → Except String E)
    (env : WhisperEnv) (st : CacheState E) (model_size : String)
    (device compute_type : Option String) (dev ct : String) (err : String) (m : E)
    (hmem : model_size ∈ ALLOWED_MODELS)
    (hdev : dev = resolve_device device env)
    (hct : ct = resolve_compute_type compute_type dev env)
    (hneed : st.model = none
      ∨ ¬(st.loaded_model_name = some model_size ∧ st.loaded_device = some dev
            ∧ st.loaded_compute_type = some ct))
    (hfail : construct model_size dev ct = .error err) :
    get_model construct env st model_size device compute_type = ⟨.error err, st, false⟩
    ∧ (construct2 model_size dev ct = .ok m →
        get_model construct2 env st model_size device compute_type
          = ⟨.ok m, ⟨some m, some model_size, some dev, some ct⟩, true⟩) := by
  subst hdev
  subst hct
  refine ⟨?_, fun hc => ?_⟩
  · rw [get_model_eq_load construct env st model_size device compute_type hmem hneed]
    simp [load_model, hfail]
  · rw [get_model_eq_load construct2 env st model_size device compute_type hmem hneed]
    simp [load_model, hc]

/-- Witness for C6: on an empty cache a failing constructor leaves the cache
empty and surfaces the error; a retry with a working constructor loads. -/
theorem engine_cache_construction_failure_preserves_state_witness :
    get_model (fun _ _ _ => (.error "missing model artifact" : Except String Nat))
        ⟨none, none⟩ CacheState.empty "base" none none
      = ⟨.error "missing model artifact", CacheState.empty, false⟩
    ∧ get_model (fun _ _ _ => (.ok 3 : Except String Nat))
        ⟨none, none⟩ CacheState.empty "base" none none
      = ⟨.ok 3, ⟨some 3, some "base", some "cpu", some "int8"⟩, true⟩ := by
  have h := engine_cache_construction_failure_preserves_state
      (fun _ _ _ => (.error "missing model artifact" : Except String Nat))
      (fun _ _ _ => (.ok 3 : Except String Nat))
      ⟨none, none⟩ CacheState.empty "base" none none "cpu" "int8" "missing model artifact" 3
      (by decide) rfl rfl (Or.inl rfl) rfl
  exact ⟨h.1, h.2 rfl⟩

/-! ### Lemmas about result shaping (`transcribe_file`) -/

/-- Claim C3: the reported duration follows the three-tier fallback — the
engine-reported duration when present; otherwise the last segment's end
timestamp when segments exist; otherwise exactly 0. -/
theorem duration_three_tier_fallback (segments_list : List RawSegment)
    (info : TranscribeInfo) (include_timestamps : Bool) :
    (∀ d, info.duration = some d →
      (transcribe_file segments_list info include_timestamps).duration_sec = d)
    ∧ (info.duration = none → segments_list ≠ [] →
      (transcribe_file segments_list info include_timestamps).duration_sec
        = (segments_list.getLastD default).end_)
    ∧ (info.duration = none → segments_list = [] →
      (transcribe_file segments_list info include_timestamps).duration_sec = 0) := by
  refine ⟨?_, ?_, ?_⟩
  · intro d hd
    by_cases h0 : d = 0 <;> simp [transcribe_file, pyOrZero, hd, h0]
  · intro hd hne
    simp [transcribe_file, pyOrZero, hd, hne]
    intro h0
    exact h0.symm
  · intro hd hnil
    simp [transcribe_file, pyOrZero, hd, hnil]

/-- Witness for C3: no engine duration with one segment ending at 3 gives
duration 3; no duration and no segments gives duration 0. -/
theorem duration_three_tier_fallback_witness :
    (transcribe_file [⟨0, 3, "hi"⟩] ⟨none, none⟩ false).duration_sec = 3
    ∧ (transcribe_file [] ⟨none, none⟩ false).duration_sec = 0 :=
  ⟨(duration_three_tier_fallback [⟨0, 3, "hi"⟩] ⟨none, none⟩ false).2.1 rfl (by decide),
   (duration_three_tier_fallback [] ⟨none, none⟩ false).2.2 rfl rfl⟩

/-- Counterexample to C4 as stated: the code joins the raw (untrimmed) segment
texts and trims only the joined result, so for segment texts `" hello "` and
`"world"` the full text is `"hello  world"`, not the spec-worded
per-segment-trimmed join `"hello world"`. -/
theorem full_text_per_segment_trim_counterexample :
    (transcribe_file [⟨0, 1, " hello "⟩, ⟨1, 2, "world"⟩] ⟨none, none⟩ false).text
      ≠ specFullText [⟨0, 1, " hello "⟩, ⟨1, 2, "world"⟩] := by
  decide

/-- Claim C4 (amended): the full text is the space-join of each segment's raw
text in the engine's emission order, with the joined result trimmed as a
whole (segments are never reordered); per-segment trimming happens only in the
materialized segment list. -/
theorem full_text_raw_join_in_emission_order (segments_list : List RawSegment)
    (info : TranscribeInfo) (include_timestamps : Bool) :
    (transcribe_file segments_list info include_timestamps).text
      = pyStrip (pyJoin " " (segments_list.map (fun s => s.text)))
    ∧ (transcribe_file segments_list info true).segments
      = segments_list.map (fun s => ⟨s.start, s.end_, pyStrip s.text⟩) := by
  constructor <;> simp [transcribe_file]

/-- Claim C5: for a fixed engine output, the `include_timestamps` flag changes
neither text, nor duration, nor detected language; it only selects between the
empty segment list and the per-segment list. -/
theorem timestamps_flag_affects_only_segments (segments_list : List RawSegment)
    (info : TranscribeInfo) :
    (transcribe_file segments_list info false).text
        = (transcribe_file segments_list info true).text
    ∧ (transcribe_file segments_list info false).duration_sec
        = (transcribe_file segments_list info true).duration_sec
    ∧ (transcribe_file segments_list info false).detected
        = (transcribe_file segments_list info true).detected
    ∧ (transcribe_file segments_list info false).segments = []
    ∧ (transcribe_file segments_list info true).segments
        = segments_list.map (fun s => ⟨s.start, s.end_, pyStrip s.text⟩) := by
  refine ⟨rfl, rfl, rfl, ?_, ?_⟩ <;> simp [transcribe_file]

/-! ### Lemmas about the request orchestrator -/

/-- Claim C9: with no configured secret every request fails with a 500
regardless of the supplied key; with a configured secret, a missing header or
one not equal to the secret yields a 401 with no body read, no temporary file
and no engine invocation. -/
theorem api_key_fails_closed (env : ServerEnv) (x_api_key : Option String)
    (model : String) (language : Option String) (timestamps : Bool)
    (filename : Option String) (readRes : ReadResult) (stage : StageResult)
    (engine : EngineBehavior) (unlinkRaises : Bool) :
    (env.TRANSCRIBE_API_KEY = "" →
      transcribeRoute env x_api_key model language timestamps filename readRes stage
          engine unlinkRaises
        = ⟨500, false, false, false, false, false, none, none, none⟩)
    ∧ (env.TRANSCRIBE_API_KEY ≠ "" →
      (∀ k, x_api_key = some k → k ≠ env.TRANSCRIBE_API_KEY) →
      transcribeRoute env x_api_key model language timestamps filename readRes stage
          engine unlinkRaises
        = ⟨401, false, false, false, false, false, none, none, none⟩) := by
  refine ⟨fun h => ?_, fun hsec hkey => ?_⟩
  · simp [transcribeRoute, h]
  · have hrej : api_key_rejected x_api_key env.TRANSCRIBE_API_KEY = true := by
      cases x_api_key with
      | none => rfl
      | some k =>
        simp [api_key_rejected]
        exact Or.inr (hkey k rfl)
    simp [transcribeRoute, hsec, hrej]

/-- Witness for C9: an unconfigured secret gives 500; a configured secret with
the header absent gives 401 before any processing. -/
theorem api_key_fails_closed_witness :
    transcribeRoute ⟨"", 100⟩ (some "anything") "small" none false none (.ok [])
        .staged (.ok [] ⟨none, none⟩) false
      = ⟨500, false, false, false, false, false, none, none, none⟩
    ∧ transcribeRoute ⟨"secret", 100⟩ none "small" none false none (.ok [])
        .staged (.ok [] ⟨none, none⟩) false
      = ⟨401, false, false, false, false, false, none, none, none⟩ :=
  ⟨(api_key_fails_closed ⟨"", 100⟩ (some "anything") "small" none false none (.ok [])
      .staged (.ok [] ⟨none, none⟩) false).1 rfl,
   (api_key_fails_closed ⟨"secret", 100⟩ none "small" none false none (.ok [])
      .staged (.ok [] ⟨none, none⟩) false).2 (by decide) (fun k hk => nomatch hk)⟩

/-- Claim C7: an authenticated request whose model is outside the allowed set
is rejected with 400 before the body is read, before any temporary file is
created and before the engine is invoked, whatever those steps would do. -/
theorem invalid_model_rejected_before_io (env : ServerEnv) (x_api_key : Option String)
    (model : String) (language : Option String) (timestamps : Bool)
    (filename : Option String) (readRes : ReadResult) (stage : StageResult)
    (engine : EngineBehavior) (unlinkRaises : Bool)
    (hsecret : env.TRANSCRIBE_API_KEY ≠ "")
    (hkey : api_key_rejected x_api_key env.TRANSCRIBE_API_KEY = false)
    (hmodel : model ∉ ALLOWED_MODELS) :
    transcribeRoute env x_api_key model language timestamps filename readRes stage
        engine unlinkRaises
      = ⟨400, false, false, false, false, false, none, none, none⟩ := by
  simp [transcribeRoute, hsecret, hkey, hmodel]

/-- Witness for C7: `model="tiny"` is rejected with 400 and no side effect. -/
theorem invalid_model_rejected_before_io_witness :
    transcribeRoute ⟨"secret", 100⟩ (some "secret") "tiny" none false none (.ok [])
        .staged (.ok [] ⟨none, none⟩) false
      = ⟨400, false, false, false, false, false, none, none, none⟩ :=
  invalid_model_rejected_before_io ⟨"secret", 100⟩ (some "secret") "tiny" none false none
    (.ok []) .staged (.ok [] ⟨none, none⟩) false (by decide) (by decide) (by decide)

/-- Claim C8: an authenticated, valid-model upload whose body length exceeds
the configured maximum is rejected with 413 after the body was read and before
any temporary file is created. -/
theorem oversized_upload_rejected_before_staging (env : ServerEnv)
    (x_api_key : Option String) (model : String) (language : Option String)
    (timestamps : Bool) (filename : Option String) (content : List Nat)
    (stage : StageResult) (engine : EngineBehavior) (unlinkRaises : Bool)
    (hsecret : env.TRANSCRIBE_API_KEY ≠ "")
    (hkey : api_key_rejected x_api_key env.TRANSCRIBE_API_KEY = false)
    (hmodel : model ∈ ALLOWED_MODELS)
    (hsize : env.MAX_UPLOAD_BYTES < content.length) :
    transcribeRoute env x_api_key model language timestamps filename (.ok content)
        stage engine unlinkRaises
      = ⟨413, true, false, false, false, false, none, none, none⟩ := by
  simp [transcribeRoute, hsecret, hkey, hmodel, hsize]

/-- Witness for C8: a 3-byte body against a 2-byte limit gives 413 with the
body read and no temporary file. -/
theorem oversized_upload_rejected_before_staging_witness :
    transcribeRoute ⟨"secret", 2⟩ (some "secret") "small" none false none
        (.ok [0, 1, 2]) .staged (.ok [] ⟨none, none⟩) false
      = ⟨413, true, false, false, false, false, none, none, none⟩ :=
  oversized_upload_rejected_before_staging ⟨"secret", 2⟩ (some "secret") "small" none
    false none [0, 1, 2] .staged (.ok [] ⟨none, none⟩) false
    (by decide) (by decide) (by decide) (by decide)

/-- Claim C10: the size check is a strict inequality — a body exactly at
`MAX_UPLOAD_BYTES` is not rejected with 413 and proceeds to staging (and to
recognition when staging succeeds); only strictly larger bodies get 413. -/
theorem size_check_strict_inequality (env : ServerEnv) (x_api_key : Option String)
    (model : String) (language : Option String) (timestamps : Bool)
    (filename : Option String) (content : List Nat) (stage : StageResult)
    (engine : EngineBehavior) (unlinkRaises : Bool)
    (hsecret : env.TRANSCRIBE_API_KEY ≠ "")
    (hkey : api_key_rejected x_api_key env.TRANSCRIBE_API_KEY = false)
    (hmodel : model ∈ ALLOWED_MODELS) :
    (content.length = env.MAX_UPLOAD_BYTES →
      (transcribeRoute env x_api_key model language timestamps filename (.ok content)
          stage engine unlinkRaises).status ≠ 413
      ∧ (transcribeRoute env x_api_key model language timestamps filename (.ok content)
          stage engine unlinkRaises).stageAttempted = true
      ∧ (stage = .staged →
        (transcribeRoute env x_api_key model language timestamps filename (.ok content)
            stage engine unlinkRaises).engineInvoked = true))
    ∧ (env.MAX_UPLOAD_BYTES < content.length →
      (transcribeRoute env x_api_key model language timestamps filename (.ok content)
          stage engine unlinkRaises).status = 413) := by
  constructor
  · intro heq
    have hnot : ¬ env.MAX_UPLOAD_BYTES < content.length := by omega
    cases stage <;> cases engine <;>
      simp [transcribeRoute, hsecret, hkey, hmodel, hnot]
  · intro hlt
    simp [transcribeRoute, hsecret, hkey, hmodel, hlt]

/-- Witness for C10: a 3-byte body at a 3-byte limit is staged and recognized
with status 200, and a 4-byte body at that limit gets 413. -/
theorem size_check_strict_inequality_witness :
    ((transcribeRoute ⟨"secret", 3⟩ (some "secret") "small" none false none
        (.ok [0, 1, 2]) .staged (.ok [] ⟨none, none⟩) false).status ≠ 413
      ∧ (transcribeRoute ⟨"secret", 3⟩ (some "secret") "small" none false none
        (.ok [0, 1, 2]) .staged (.ok [] ⟨none, none⟩) false).stageAttempted = true
      ∧ (transcribeRoute ⟨"secret", 3⟩ (some "secret") "small" none false none
        (.ok [0, 1, 2]) .staged (.ok [] ⟨none, none⟩) false).engineInvoked = true)
    ∧ (transcribeRoute ⟨"secret", 3⟩ (some "secret") "small" none false none
        (.ok [0, 1, 2, 3]) .staged (.ok [] ⟨none, none⟩) false).status = 413 := by
  have h1 := (size_check_strict_inequality ⟨"secret", 3⟩ (some "secret") "small" none
    false none [0, 1, 2] .staged (.ok [] ⟨none, none⟩) false
    (by decide) (by decide) (by decide)).1 rfl
  have h2 := (size_check_strict_inequality ⟨"secret", 3⟩ (some "secret") "small" none
    false none [0, 1, 2, 3] .staged (.ok [] ⟨none, none⟩) false
    (by decide) (by decide) (by decide)).2 (by decide)
  exact ⟨⟨h1.1, h1.2.1, h1.2.2 rfl⟩, h2⟩

/-- Claim C2 (code bug): when `f.write(content)` raises after
`NamedTemporaryFile(delete=False)` has created the file, `tmp_path` was never
assigned, the `finally` block skips the unlink, and the staged temporary file
survives the request — evaluated here at a concrete authenticated request. -/
theorem temp_file_leaked_on_write_failure :
    transcribeRoute ⟨"secret", 100⟩ (some "secret") "small" none false (some "a.wav")
        (.ok [0, 1, 2]) .writeFail .otherError false
      = ⟨500, true, true, true, true, false, some ".wav", none, none⟩ := by
  decide

end FLYR
